import Mathlib

/-!
Verification of the APRS_SAGEBOT APRS-IS client core against its
natural-language specification.

The definitions below are a shallow embedding of the C++ sources
(`src/unnamed/part_003`, the state-machine version of `aprsService.cpp`,
together with `src/src/aprsService.cpp` where cited).  Arduino `String`
values are modelled by Lean `String`, the TCP client by an explicit record
of a connected flag plus buffered input / written output, `millis()` by an
explicit `Nat`-valued time supplied at each poll, and the `static` local
variables by explicitly threaded state.
-/

/-- Embedding of Arduino `String::startsWith`: `p` is a prefix of `s`. -/
def strStartsWith (s p : String) : Bool :=
  p.data.isPrefixOf s.data

/-- Embedding of Arduino `String::indexOf(p) != -1`: `p` occurs as a
contiguous substring of `s`. -/
def strContains (s p : String) : Bool :=
  s.data.tails.any (fun t => p.data.isPrefixOf t)

theorem isPrefixOf_append_self (p b : List Char) : p.isPrefixOf (p ++ b) = true := by
  induction p with
  | nil => simp [List.isPrefixOf]
  | cons a as ih => simp [List.isPrefixOf, ih]

theorem mem_tails_append (a rest : List Char) : rest ∈ (a ++ rest).tails := by
  rw [List.mem_tails]
  exact List.suffix_append a rest

/-- A string that is literally built around `p` contains `p`. -/
theorem strContains_of_append (a p b : List Char) :
    strContains ⟨a ++ (p ++ b)⟩ ⟨p⟩ = true := by
  unfold strContains
  rw [List.any_eq_true]
  exact ⟨p ++ b, mem_tails_append a (p ++ b), isPrefixOf_append_self p b⟩

theorem string_data_append (s t : String) : (s ++ t).data = s.data ++ t.data := rfl

theorem string_append_assoc (a b c : String) : a ++ b ++ c = a ++ (b ++ c) := by
  cases a; cases b; cases c
  apply congrArg String.mk
  exact List.append_assoc _ _ _

/-!
## Message formatter (part_003 lines 118–133, 140–164, 290–301)
The C++ code reads the globals `CALLSIGN`, `APRS_PASSCODE`, … ; they are
modelled as explicit parameters.
-/

/-- Source function `APRSformatBulletin` (part_003 lines 118–133):
`String str = CALLSIGN + ">APRS,TCPIP*:" + ":BLN" + ID + "     :" + message;` -/
def APRSformatBulletin (callsign message id : String) : String :=
  callsign ++ ">APRS,TCPIP*:" ++ ":BLN" ++ id ++ "     :" ++ message

/-- Source function `APRSpadCall` (part_003 lines 156–164): `snprintf("%-9.9s")`, i.e. take
at most 9 characters and left-justify in a field of width 9. -/
def APRSpadCall (callSign : String) : String :=
  ⟨callSign.data.take 9 ++ List.replicate (9 - callSign.data.length) ' '⟩

/-- Source function `performAPRSLogon` (part_003 lines 83–93): the logon line built and sent
by `client.println(dataString)`, with the `+=` chain grouped as in C++. -/
def performAPRSLogon (callsign passcode softwareName softwareVers filter : String) :
    String :=
  let d1 := "user " ++ callsign
  let d2 := d1 ++ (" pass " ++ passcode)
  let d3 := d2 ++ (" ver " ++ softwareName ++ " " ++ softwareVers)
  d3 ++ (" filter " ++ filter)

/-!
## Connection state machine (part_003 lines 56–62, 103–111, 415–433, 444–457)
-/

/-- The global `enum APRS_State` (part_003 lines 56–61). -/
inductive APRS_State
  | APRS_DISCONNECTED
  | APRS_CONNECTED
  | APRS_LOGGED_IN
  | APRS_VERIFIED
deriving DecidableEq, Repr

open APRS_State

/-- Outcomes of the helper calls made by one `updateAPRS()` poll:
whether `connectToAPRS()` returns true, whether `verifyLogonStatus()`
returns true, and whether `client.connected()` still holds at the end of
`pollAPRS()` (its connection watchdog, part_003 lines 362–366). -/
structure PollOutcome where
  connectOk : Bool
  verifyOk : Bool
  clientConnectedAfterPoll : Bool

/-- Source function `updateAPRS` (part_003 lines 415–433).  In the `APRS_DISCONNECTED` case
the source calls `connectToAPRS();` and discards the result, leaving
`aprsState` untouched; in `APRS_CONNECTED`/`APRS_LOGGED_IN` (fall-through)
it sets `APRS_VERIFIED` only when `verifyLogonStatus()` returns true; in
`APRS_VERIFIED` the watchdog in `pollAPRS()` drops to `APRS_DISCONNECTED`
when the client is no longer connected. -/
def updateAPRS (s : APRS_State) (env : PollOutcome) : APRS_State :=
  match s with
  | APRS_DISCONNECTED => APRS_DISCONNECTED
  | APRS_CONNECTED => if env.verifyOk then APRS_VERIFIED else APRS_CONNECTED
  | APRS_LOGGED_IN => if env.verifyOk then APRS_VERIFIED else APRS_LOGGED_IN
  | APRS_VERIFIED =>
      if env.clientConnectedAfterPoll then APRS_VERIFIED else APRS_DISCONNECTED

/-!
## Transport write side (part_003 lines 202–214, 274–285, 290–301)
The `WiFiClient client` global: a connected flag plus the list of lines
written so far by `client.println`.
-/

/-- The write-side view of the global `WiFiClient client`. -/
structure Client where
  connected : Bool
  written : List String
deriving DecidableEq, Repr

/-- Source function `postToAPRS` (part_003 lines 202–214): writes the message only when
`client.connected()`. -/
def postToAPRS (cl : Client) (message : String) : Client :=
  if cl.connected then { cl with written := cl.written ++ [message] } else cl

/-- Source function `APRSsendBulletin` (part_003 lines 274–285): messages longer than 67
characters are dropped before formatting; otherwise the formatted bulletin
is handed to `postToAPRS`. -/
def APRSsendBulletin (cl : Client) (callsign message id : String) : Client :=
  if message.length > 67 then cl
  else postToAPRS cl (APRSformatBulletin callsign message id)

/-- Source function `APRSsendACK` (part_003 lines 290–301): builds the ack frame (with
`APRS_ID_MESSAGE = ':'` appended twice as a char) and calls
`client.println(dataString)` unconditionally. -/
def APRSsendACK (cl : Client) (callsign recipient msgID : String) : Client :=
  let dataString :=
    callsign ++ ">APRS,TCPIP*:" ++ ":" ++ APRSpadCall recipient ++ ":" ++ "ack" ++ msgID
  { cl with written := cl.written ++ [dataString] }

/-!
## Bulletin scheduler (part_003 lines 233–262)
`myTZ.hour()`, `myTZ.minute()`, `myTZ.day()` are the poll inputs; the
globals `amBulletinSent`, `pmBulletinSent` and the `static int lastDay`
are the threaded state (`lastDay` is initialised to `-1`, hence `Int`).
-/

/-- The scheduler state: globals `amBulletinSent`, `pmBulletinSent`
(part_003 lines 67–68) and `static int lastDay` (line 254). -/
structure SchedState where
  amBulletinSent : Bool
  pmBulletinSent : Bool
  lastDay : Int
deriving DecidableEq, Repr

/-- One clock reading handed to a `processBulletins()` poll. -/
structure Poll where
  hour : Nat
  minute : Nat
  day : Int
deriving DecidableEq, Repr

/-- Source function `processBulletins` (part_003 lines 233–262), returning the new state
plus whether the morning and the evening bulletin fired on this poll.
The day-change reset runs after both fire checks, exactly as in the
source. -/
def processBulletins (s : SchedState) (c : Poll) : SchedState × Bool × Bool :=
  let fireAM := c.hour == 8 && c.minute == 0 && !s.amBulletinSent
  let s1 := cond fireAM { s with amBulletinSent := true } s
  let firePM := c.hour == 20 && c.minute == 0 && !s1.pmBulletinSent
  let s2 := cond firePM { s1 with pmBulletinSent := true } s1
  let s3 :=
    cond (c.day != s2.lastDay)
      { amBulletinSent := false, pmBulletinSent := false, lastDay := c.day }
      s2
  (s3, fireAM, firePM)

/-- Number of morning bulletins fired over a sequence of polls. -/
def mCount (s : SchedState) : List Poll → Nat
  | [] => 0
  | c :: cs =>
      (if (processBulletins s c).2.1 then 1 else 0) + mCount (processBulletins s c).1 cs

/-- Number of evening bulletins fired over a sequence of polls. -/
def eCount (s : SchedState) : List Poll → Nat
  | [] => 0
  | c :: cs =>
      (if (processBulletins s c).2.2 then 1 else 0) + eCount (processBulletins s c).1 cs

/-!
## Packet reader (part_003 lines 313–339)
-/

/-- The read-side view of the global `WiFiClient client`: connected flag
plus the bytes currently available to read. -/
structure ReaderClient where
  connected : Bool
  buffer : List Char
deriving DecidableEq, Repr

/-- Embedding of `client.readStringUntil` at terminator `'\n'`: the characters up to the first
line feed (terminator stripped), and the remaining buffer with the
terminator consumed. -/
def readStringUntilNL (buf : List Char) : String × List Char :=
  (⟨buf.takeWhile (fun ch => ch ≠ '\n')⟩, (buf.dropWhile (fun ch => ch ≠ '\n')).drop 1)

/-- Source function `readAPRSPacket` (part_003 lines 313–339).  `timeoutStamp` is the
`static unsigned long` (0 meaning "timer not running"), `now` is the value
`millis()` would return during this call.  Returns the updated client,
the updated `timeoutStamp`, the packet, and the boolean result. -/
def readAPRSPacket (cl : ReaderClient) (timeoutStamp now : Nat) :
    ReaderClient × Nat × String × Bool :=
  if cl.connected = false then
    (cl, timeoutStamp, "", false)
  else if cl.buffer.isEmpty = false then
    let r := readStringUntilNL cl.buffer
    ({ cl with buffer := r.2 }, 0, r.1, decide (r.1.length > 0))
  else if timeoutStamp = 0 then
    (cl, now, "", false)
  else if now - timeoutStamp > 1500 then
    ({ cl with connected := false }, 0, "", false)
  else
    (cl, timeoutStamp, "", false)

/-!
## Logon verification (part_003 lines 378–398)
-/

/-- How `verifyLogonStatus` treats one line returned by the packet
reader. -/
inductive LogonJudgement
  | accepted
  | rejected
  | ignored
deriving DecidableEq, Repr

/-- The per-line decision inside `verifyLogonStatus` (part_003 lines
384–392): only lines starting with `"# logresp"` are examined; such a line
verifies when it contains `"verified"` and not `"unverified"`, is a
rejection when it contains `"unverified"`, and everything else (including
a `"# logresp"` line with neither token) lets the polling loop continue. -/
def judgeLogonLine (response : String) : LogonJudgement :=
  if strStartsWith response "# logresp" then
    if strContains response "verified" && !strContains response "unverified" then
      LogonJudgement.accepted
    else if strContains response "unverified" then
      LogonJudgement.rejected
    else
      LogonJudgement.ignored
  else
    LogonJudgement.ignored

/-- The `while (millis() < timeout)` loop of `verifyLogonStatus`
(part_003 lines 380–395).  `times` is the sequence of `millis()` readings
at the successive loop-condition checks; the loop state (client and the
reader timeout stamp) is threaded through `readAPRSPacket`.  Returns
`some b` when the source function would return `b`, `none` when the trace
of clock readings ran out before the loop ended, together with the final
client and stamp. -/
def verifyAux (deadline : Nat) :
    List Nat → ReaderClient → Nat → Option Bool × ReaderClient × Nat
  | [], cl, stamp => (none, cl, stamp)
  | t :: ts, cl, stamp =>
      if t < deadline then
        let r := readAPRSPacket cl stamp t
        if r.2.2.2 then
          match judgeLogonLine r.2.2.1 with
          | LogonJudgement.accepted => (some true, r.1, r.2.1)
          | LogonJudgement.rejected => (some false, r.1, r.2.1)
          | LogonJudgement.ignored => verifyAux deadline ts r.1 r.2.1
        else
          verifyAux deadline ts r.1 r.2.1
      else
        (some false, cl, stamp)

/-- Source function `verifyLogonStatus` (part_003 lines 378–398):
`unsigned long timeout = millis() + APRS_TIMEOUT;` with
`APRS_TIMEOUT = 2000`, then the polling loop. -/
def verifyLogonStatus (tInit : Nat) (times : List Nat) (cl : ReaderClient)
    (stamp : Nat) : Option Bool × ReaderClient × Nat :=
  verifyAux (tInit + 2000) times cl stamp

/-!
## Claim C1 — connection state machine transitions
-/

/-- C1 (counterexample): from `APRS_LOGGED_IN`, a failed (timed-out or
rejected) verification leaves `updateAPRS` in `APRS_LOGGED_IN`; it does
not move the state to `APRS_DISCONNECTED` as the claim states. -/
theorem claim_C1_counterexample :
    updateAPRS APRS_State.APRS_LOGGED_IN ⟨false, false, false⟩ =
      APRS_State.APRS_LOGGED_IN ∧
    updateAPRS APRS_State.APRS_LOGGED_IN ⟨false, false, false⟩ ≠
      APRS_State.APRS_DISCONNECTED := by
  decide

/-- C1 (amended): from `APRS_DISCONNECTED` a failed connect attempt leaves
the state `APRS_DISCONNECTED` (the poll ignores the result of
`connectToAPRS()` entirely); from `APRS_LOGGED_IN` a verification check
that times out or is rejected leaves the state `APRS_LOGGED_IN` — not
`APRS_DISCONNECTED` — and never moves it to `APRS_VERIFIED`. -/
theorem claim_C1_state_machine :
    (∀ env : PollOutcome, env.connectOk = false →
       updateAPRS APRS_State.APRS_DISCONNECTED env = APRS_State.APRS_DISCONNECTED) ∧
    (∀ env : PollOutcome, env.verifyOk = false →
       updateAPRS APRS_State.APRS_LOGGED_IN env = APRS_State.APRS_LOGGED_IN ∧
       updateAPRS APRS_State.APRS_LOGGED_IN env ≠ APRS_State.APRS_VERIFIED) := by
  refine ⟨fun env _ => rfl, fun env h => ?_⟩
  refine ⟨by simp [updateAPRS, h], by simp [updateAPRS, h]⟩

/-- C1 (witness): the amended transition facts at concrete poll
outcomes. -/
theorem claim_C1_witness :
    updateAPRS APRS_State.APRS_DISCONNECTED ⟨false, false, false⟩ =
      APRS_State.APRS_DISCONNECTED ∧
    updateAPRS APRS_State.APRS_LOGGED_IN ⟨true, false, true⟩ =
      APRS_State.APRS_LOGGED_IN ∧
    updateAPRS APRS_State.APRS_LOGGED_IN ⟨true, false, true⟩ ≠
      APRS_State.APRS_VERIFIED :=
  ⟨claim_C1_state_machine.1 ⟨false, false, false⟩ rfl,
   (claim_C1_state_machine.2 ⟨true, false, true⟩ rfl).1,
   (claim_C1_state_machine.2 ⟨true, false, true⟩ rfl).2⟩

/-!
## Claim C2 — logon line format
-/

/-- C2 (counterexample): the keyword the code writes between the passcode
and the client id is `ver`, not `vers`; at the concrete credentials of the
claim the built line differs from the claimed one. -/
theorem claim_C2_counterexample :
    performAPRSLogon "CALL-2" "9092" "ID" "VERSION" "b/CALL-2*" ≠
      "user CALL-2 pass 9092 vers ID VERSION filter b/CALL-2*" := by
  decide

/-- C2 (amended): for every credentials value the logon line equals,
verbatim and space-separated,
`user <CALLSIGN> pass <PASSCODE> ver <CLIENT_ID> <VERSION> filter <FILTER>`
(keyword `ver`, not `vers`); in particular with callsign `CALL-2`,
passcode `9092` and filter `b/CALL-2*` it equals
`user CALL-2 pass 9092 ver ID VERSION filter b/CALL-2*`. -/
theorem claim_C2_logon_line :
    (∀ c p n v f : String,
       performAPRSLogon c p n v f =
         "user " ++ c ++ " pass " ++ p ++ " ver " ++ n ++ " " ++ v ++
           " filter " ++ f) ∧
    performAPRSLogon "CALL-2" "9092" "ID" "VERSION" "b/CALL-2*" =
      "user CALL-2 pass 9092 ver ID VERSION filter b/CALL-2*" := by
  refine ⟨fun c p n v f => ?_, by decide⟩
  simp only [performAPRSLogon, string_append_assoc]

/-!
## Claim C7 — bulletin frame format
-/

/-- C7 (confirmed): for every callsign, message and single-character ID,
the formatted frame equals
`<CALLSIGN>>APRS,TCPIP*::BLN<ID>     :<message>` (five fixed spaces before
the colon), and the concrete scenario of the claim holds. -/
theorem claim_C7_bulletin_frame :
    (∀ callsign message id : String, id.length = 1 →
       APRSformatBulletin callsign message id =
         callsign ++ ">APRS,TCPIP*::BLN" ++ id ++ "     :" ++ message) ∧
    APRSformatBulletin "W4KRL-2" "Keep calm." "M" =
      "W4KRL-2>APRS,TCPIP*::BLNM     :Keep calm." := by
  refine ⟨fun c m i _ => ?_, by decide⟩
  show ((((c ++ ">APRS,TCPIP*:") ++ ":BLN") ++ i) ++ "     :") ++ m = _
  rw [string_append_assoc c ">APRS,TCPIP*:" ":BLN",
    show (">APRS,TCPIP*:" ++ ":BLN" : String) = ">APRS,TCPIP*::BLN" by decide]

/-- C7 (witness): the frame equation applied at the concrete scenario of
the claim. -/
theorem claim_C7_witness :
    ("M" : String).length = 1 ∧
    APRSformatBulletin "W4KRL-2" "Keep calm." "M" =
      "W4KRL-2>APRS,TCPIP*::BLNM     :Keep calm." :=
  ⟨by decide,
   by
    rw [claim_C7_bulletin_frame.1 "W4KRL-2" "Keep calm." "M" (by decide)]
    decide⟩

/-!
## Claim C3 — logon verification decision rule
-/

/-- C3 (counterexample): a response line that contains `verified` and not
`unverified` but does not begin with the `# logresp` marker is ignored by
`verifyLogonStatus`, not judged verified as the claim states. -/
theorem claim_C3_counterexample :
    strContains "server says verified" "verified" = true ∧
    strContains "server says verified" "unverified" = false ∧
    judgeLogonLine "server says verified" ≠ LogonJudgement.accepted ∧
    judgeLogonLine "server says verified" = LogonJudgement.ignored := by
  decide

/-- C3 (amended): only response lines beginning with `# logresp` are
examined: such a line is judged verified exactly when it contains
`verified` and not `unverified`, and is a definitive rejection exactly
when it contains `unverified`; a rejection makes the verification loop
return false at once, and every other line (including any line without
the marker) is ignored and polling continues. -/
theorem claim_C3_decision_rule :
    (∀ line : String,
      (judgeLogonLine line = LogonJudgement.accepted ↔
        (strStartsWith line "# logresp" && strContains line "verified" &&
          !strContains line "unverified") = true) ∧
      (judgeLogonLine line = LogonJudgement.rejected ↔
        (strStartsWith line "# logresp" && strContains line "unverified") = true)) ∧
    (∀ deadline t : Nat, ∀ ts : List Nat, ∀ cl : ReaderClient, ∀ stamp : Nat,
      t < deadline →
      (readAPRSPacket cl stamp t).2.2.2 = true →
      (judgeLogonLine (readAPRSPacket cl stamp t).2.2.1 = LogonJudgement.rejected →
        verifyAux deadline (t :: ts) cl stamp =
          (some false, (readAPRSPacket cl stamp t).1, (readAPRSPacket cl stamp t).2.1)) ∧
      (judgeLogonLine (readAPRSPacket cl stamp t).2.2.1 = LogonJudgement.ignored →
        verifyAux deadline (t :: ts) cl stamp =
          verifyAux deadline ts (readAPRSPacket cl stamp t).1
            (readAPRSPacket cl stamp t).2.1)) := by
  constructor
  · intro line
    cases hs : strStartsWith line "# logresp" <;>
      cases hv : strContains line "verified" <;>
        cases hu : strContains line "unverified" <;>
          simp [judgeLogonLine, hs, hv, hu]
  · intro deadline t ts cl stamp ht hok
    constructor <;> intro hj <;> simp [verifyAux, ht, hok, hj]

/-- C3 (witness): a concrete `# logresp ... unverified` line delivered by
the reader ends the verification loop at once with a not-verified
result. -/
theorem claim_C3_witness :
    (0 : Nat) < 2000 ∧
    (readAPRSPacket ⟨true, "# logresp CALL-2 unverified, server T2\n".data⟩ 0 0).2.2.2 =
      true ∧
    judgeLogonLine
        (readAPRSPacket ⟨true, "# logresp CALL-2 unverified, server T2\n".data⟩ 0 0).2.2.1 =
      LogonJudgement.rejected ∧
    verifyAux 2000 [0] ⟨true, "# logresp CALL-2 unverified, server T2\n".data⟩ 0 =
      (some false,
        (readAPRSPacket ⟨true, "# logresp CALL-2 unverified, server T2\n".data⟩ 0 0).1,
        (readAPRSPacket ⟨true, "# logresp CALL-2 unverified, server T2\n".data⟩ 0 0).2.1) :=
  ⟨by decide, by decide, by decide,
   ((claim_C3_decision_rule.2 2000 0 []
      ⟨true, "# logresp CALL-2 unverified, server T2\n".data⟩ 0
      (by decide) (by decide)).1 (by decide))⟩


/-!
## Claim C4 — bulletin scheduler
-/

theorem pb_fireAM (s : SchedState) (c : Poll) :
    (processBulletins s c).2.1 = (c.hour == 8 && c.minute == 0 && !s.amBulletinSent) :=
  rfl

theorem pb_firePM (s : SchedState) (c : Poll) :
    (processBulletins s c).2.2 = (c.hour == 20 && c.minute == 0 && !s.pmBulletinSent) := by
  cases hA : (c.hour == 8 && c.minute == 0 && !s.amBulletinSent) <;>
    simp [processBulletins, hA]

/-- On a poll whose day matches `lastDay`, the flags only accumulate the
fires of this poll and `lastDay` is unchanged. -/
theorem pb_state_same_day (s : SchedState) (c : Poll) (h : c.day = s.lastDay) :
    (processBulletins s c).1.amBulletinSent =
      (s.amBulletinSent || (processBulletins s c).2.1) ∧
    (processBulletins s c).1.pmBulletinSent =
      (s.pmBulletinSent || (processBulletins s c).2.2) ∧
    (processBulletins s c).1.lastDay = s.lastDay := by
  have hbne : (c.day != s.lastDay) = false := by
    rw [h]; exact bne_self_eq_false s.lastDay
  cases hA : (c.hour == 8 && c.minute == 0 && !s.amBulletinSent) <;>
    cases hP : (c.hour == 20 && c.minute == 0 && !s.pmBulletinSent) <;>
      simp [processBulletins, hA, hP, hbne]

/-- On a poll whose day differs from `lastDay`, the final state is fully
reset (both flags cleared, `lastDay` updated), whatever the flags were. -/
theorem pb_reset (s : SchedState) (c : Poll) (h : c.day ≠ s.lastDay) :
    (processBulletins s c).1 = ⟨false, false, c.day⟩ := by
  have hbne : (c.day != s.lastDay) = true := bne_iff_ne.mpr h
  cases hA : (c.hour == 8 && c.minute == 0 && !s.amBulletinSent) <;>
    cases hP : (c.hour == 20 && c.minute == 0 && !s.pmBulletinSent) <;>
      simp [processBulletins, hA, hP, hbne]

theorem mCount_of_am_true (cs : List Poll) : ∀ s : SchedState,
    (∀ c ∈ cs, c.day = s.lastDay) → s.amBulletinSent = true → mCount s cs = 0 := by
  induction cs with
  | nil => intro s _ _; rfl
  | cons c cs ih =>
      intro s hdays ham
      have hd : c.day = s.lastDay := hdays c (by simp)
      have hfire : (processBulletins s c).2.1 = false := by
        rw [pb_fireAM, ham]; simp
      have hst := pb_state_same_day s c hd
      have hdays' : ∀ c' ∈ cs, c'.day = (processBulletins s c).1.lastDay := by
        intro c' hc'; rw [hst.2.2]; exact hdays c' (by simp [hc'])
      have ham' : (processBulletins s c).1.amBulletinSent = true := by
        rw [hst.1, ham]; rfl
      simp [mCount, hfire, ih (processBulletins s c).1 hdays' ham']

theorem eCount_of_pm_true (cs : List Poll) : ∀ s : SchedState,
    (∀ c ∈ cs, c.day = s.lastDay) → s.pmBulletinSent = true → eCount s cs = 0 := by
  induction cs with
  | nil => intro s _ _; rfl
  | cons c cs ih =>
      intro s hdays hpm
      have hd : c.day = s.lastDay := hdays c (by simp)
      have hfire : (processBulletins s c).2.2 = false := by
        rw [pb_firePM, hpm]; simp
      have hst := pb_state_same_day s c hd
      have hdays' : ∀ c' ∈ cs, c'.day = (processBulletins s c).1.lastDay := by
        intro c' hc'; rw [hst.2.2]; exact hdays c' (by simp [hc'])
      have hpm' : (processBulletins s c).1.pmBulletinSent = true := by
        rw [hst.2.1, hpm]; rfl
      simp [eCount, hfire, ih (processBulletins s c).1 hdays' hpm']

theorem mCount_same_day_le_one (cs : List Poll) : ∀ s : SchedState,
    (∀ c ∈ cs, c.day = s.lastDay) → mCount s cs ≤ 1 := by
  induction cs with
  | nil => intro s _; exact Nat.zero_le 1
  | cons c cs ih =>
      intro s hdays
      have hd : c.day = s.lastDay := hdays c (by simp)
      have hst := pb_state_same_day s c hd
      have hdays' : ∀ c' ∈ cs, c'.day = (processBulletins s c).1.lastDay := by
        intro c' hc'; rw [hst.2.2]; exact hdays c' (by simp [hc'])
      cases hfire : (processBulletins s c).2.1 with
      | false =>
          simpa [mCount, hfire] using ih (processBulletins s c).1 hdays'
      | true =>
          have ham' : (processBulletins s c).1.amBulletinSent = true := by
            rw [hst.1, hfire]; simp
          simp [mCount, hfire,
            mCount_of_am_true cs (processBulletins s c).1 hdays' ham']

theorem eCount_same_day_le_one (cs : List Poll) : ∀ s : SchedState,
    (∀ c ∈ cs, c.day = s.lastDay) → eCount s cs ≤ 1 := by
  induction cs with
  | nil => intro s _; exact Nat.zero_le 1
  | cons c cs ih =>
      intro s hdays
      have hd : c.day = s.lastDay := hdays c (by simp)
      have hst := pb_state_same_day s c hd
      have hdays' : ∀ c' ∈ cs, c'.day = (processBulletins s c).1.lastDay := by
        intro c' hc'; rw [hst.2.2]; exact hdays c' (by simp [hc'])
      cases hfire : (processBulletins s c).2.2 with
      | false =>
          simpa [eCount, hfire] using ih (processBulletins s c).1 hdays'
      | true =>
          have hpm' : (processBulletins s c).1.pmBulletinSent = true := by
            rw [hst.2.1, hfire]; simp
          simp [eCount, hfire,
            eCount_of_pm_true cs (processBulletins s c).1 hdays' hpm']

/-- C4 (counterexample): over two polls of the same calendar day (day 2,
both at 08:00, starting from a state whose `lastDay` is still day 1) the
morning bulletin fires twice: the first poll fires and sets the flag, but
the day-change reset in that same poll clears it again, so the second
poll fires once more.  "At most one morning bulletin per day for every
sequence of scheduler polls" therefore fails. -/
theorem claim_C4_counterexample :
    (∀ c ∈ [(⟨8, 0, 2⟩ : Poll), ⟨8, 0, 2⟩], c.day = 2) ∧
    mCount ⟨false, false, 1⟩ [⟨8, 0, 2⟩, ⟨8, 0, 2⟩] = 2 := by
  decide

/-- C4 (amended): each single-poll behaviour is as claimed (a poll at
08:00 with the flag clear fires and sets the flag; a poll with the flag
set does not fire; a poll whose day differs from `lastDay` clears both
flags regardless of their prior value, the reset running after the fire
checks), and at most one morning and one evening bulletin fire per
calendar day provided the first poll observing the new day is not itself
at a bulletin slot time (08:00 or 20:00) — without that proviso the
counterexample applies. -/
theorem claim_C4_scheduler :
    (∀ (s : SchedState) (d : Int), s.amBulletinSent = false → s.lastDay = d →
       (processBulletins s ⟨8, 0, d⟩).2.1 = true ∧
       (processBulletins s ⟨8, 0, d⟩).1.amBulletinSent = true) ∧
    (∀ (s : SchedState) (d : Int), s.amBulletinSent = true →
       (processBulletins s ⟨8, 0, d⟩).2.1 = false) ∧
    (∀ (s : SchedState) (c : Poll), c.day ≠ s.lastDay →
       (processBulletins s c).1 = ⟨false, false, c.day⟩) ∧
    (∀ (s : SchedState) (cs : List Poll),
       (∀ c ∈ cs, c.day = s.lastDay) → mCount s cs ≤ 1 ∧ eCount s cs ≤ 1) ∧
    (∀ (s : SchedState) (c0 : Poll) (cs : List Poll) (d : Int),
       (∀ c ∈ c0 :: cs, c.day = d) → s.lastDay ≠ d →
       ¬(c0.hour = 8 ∧ c0.minute = 0) → ¬(c0.hour = 20 ∧ c0.minute = 0) →
       mCount s (c0 :: cs) ≤ 1 ∧ eCount s (c0 :: cs) ≤ 1) := by
  refine ⟨?_, ?_, pb_reset, ?_, ?_⟩
  · intro s d ham hld
    have hfire : (processBulletins s ⟨8, 0, d⟩).2.1 = true := by
      rw [pb_fireAM, ham]; simp
    have hst := pb_state_same_day s ⟨8, 0, d⟩ (by simpa using hld.symm)
    exact ⟨hfire, by rw [hst.1, hfire]; simp⟩
  · intro s d ham
    rw [pb_fireAM, ham]; simp
  · intro s cs hdays
    exact ⟨mCount_same_day_le_one cs s hdays, eCount_same_day_le_one cs s hdays⟩
  · intro s c0 cs d hdays hne hm8 hm20
    have hd0 : c0.day = d := hdays c0 (by simp)
    have hreset : (processBulletins s c0).1 = ⟨false, false, c0.day⟩ :=
      pb_reset s c0 (by rw [hd0]; exact fun h => hne h.symm)
    have hdays' : ∀ c ∈ cs, c.day = (processBulletins s c0).1.lastDay := by
      intro c hc; rw [hreset]; show c.day = c0.day
      rw [hd0]; exact hdays c (by simp [hc])
    have hmb : ((c0.hour == 8 : Bool) && c0.minute == 0) = false := by
      cases hh : (c0.hour == 8) <;> cases hmn : (c0.minute == 0) <;>
        simp_all
    have heb : ((c0.hour == 20 : Bool) && c0.minute == 0) = false := by
      cases hh : (c0.hour == 20) <;> cases hmn : (c0.minute == 0) <;>
        simp_all
    have hfm : (processBulletins s c0).2.1 = false := by
      rw [pb_fireAM, hmb]; simp
    have hfe : (processBulletins s c0).2.2 = false := by
      rw [pb_firePM, heb]; simp
    constructor
    · simpa [mCount, hfm] using
        mCount_same_day_le_one cs (processBulletins s c0).1 hdays'
    · simpa [eCount, hfe] using
        eCount_same_day_le_one cs (processBulletins s c0).1 hdays'

/-- C4 (witness): the amended scheduler facts at concrete states and poll
sequences. -/
theorem claim_C4_witness :
    (processBulletins ⟨false, false, 5⟩ ⟨8, 0, 5⟩).2.1 = true ∧
    (processBulletins ⟨false, false, 5⟩ ⟨8, 0, 5⟩).1.amBulletinSent = true ∧
    (processBulletins ⟨true, false, 5⟩ ⟨8, 0, 5⟩).2.1 = false ∧
    (processBulletins ⟨true, true, 4⟩ ⟨0, 30, 5⟩).1 = ⟨false, false, 5⟩ ∧
    mCount ⟨false, true, 5⟩ [⟨8, 0, 5⟩, ⟨8, 1, 5⟩] ≤ 1 ∧
    eCount ⟨false, true, 5⟩ [⟨8, 0, 5⟩, ⟨8, 1, 5⟩] ≤ 1 ∧
    mCount ⟨true, true, 4⟩ [⟨0, 0, 5⟩, ⟨8, 0, 5⟩, ⟨20, 0, 5⟩] ≤ 1 ∧
    eCount ⟨true, true, 4⟩ [⟨0, 0, 5⟩, ⟨8, 0, 5⟩, ⟨20, 0, 5⟩] ≤ 1 :=
  ⟨(claim_C4_scheduler.1 ⟨false, false, 5⟩ 5 rfl rfl).1,
   (claim_C4_scheduler.1 ⟨false, false, 5⟩ 5 rfl rfl).2,
   claim_C4_scheduler.2.1 ⟨true, false, 5⟩ 5 rfl,
   claim_C4_scheduler.2.2.1 ⟨true, true, 4⟩ ⟨0, 30, 5⟩ (by decide),
   (claim_C4_scheduler.2.2.2.1 ⟨false, true, 5⟩ [⟨8, 0, 5⟩, ⟨8, 1, 5⟩]
     (by decide)).1,
   (claim_C4_scheduler.2.2.2.1 ⟨false, true, 5⟩ [⟨8, 0, 5⟩, ⟨8, 1, 5⟩]
     (by decide)).2,
   (claim_C4_scheduler.2.2.2.2 ⟨true, true, 4⟩ ⟨0, 0, 5⟩ [⟨8, 0, 5⟩, ⟨20, 0, 5⟩] 5
     (by decide) (by decide) (by decide) (by decide)).1,
   (claim_C4_scheduler.2.2.2.2 ⟨true, true, 4⟩ ⟨0, 0, 5⟩ [⟨8, 0, 5⟩, ⟨20, 0, 5⟩] 5
     (by decide) (by decide) (by decide) (by decide)).2⟩

/-!
## Claim C5 — bulletin length guard
-/

/-- C5 (counterexample): a message of length ≤ 67 does not always produce
exactly one transport write: when the client is not connected,
`postToAPRS` drops the formatted bulletin and nothing is written. -/
theorem claim_C5_counterexample :
    ("x" : String).length ≤ 67 ∧
    (APRSsendBulletin ⟨false, []⟩ "W4KRL-2" "x" "1").written.length = 0 := by
  decide

/-- C5 (amended): a message longer than 67 characters is dropped before
formatting with no transport write; a message of length ≤ 67 produces
exactly one write — containing the literal substring `:BLN<ID>` — when
the client is connected, and no write at all when it is not. -/
theorem claim_C5_send_bulletin :
    (∀ (cl : Client) (c m i : String), m.length > 67 →
       APRSsendBulletin cl c m i = cl) ∧
    (∀ (cl : Client) (c m i : String), m.length ≤ 67 → cl.connected = true →
       (APRSsendBulletin cl c m i).written =
         cl.written ++ [APRSformatBulletin c m i] ∧
       strContains (APRSformatBulletin c m i) (":BLN" ++ i) = true) ∧
    (∀ (cl : Client) (c m i : String), m.length ≤ 67 → cl.connected = false →
       APRSsendBulletin cl c m i = cl) := by
  refine ⟨fun cl c m i h => ?_, fun cl c m i h hcon => ⟨?_, ?_⟩,
    fun cl c m i h hcon => ?_⟩
  · simp [APRSsendBulletin, h]
  · simp [APRSsendBulletin, postToAPRS, Nat.not_lt.mpr h, hcon]
  · have hsplit : APRSformatBulletin c m i =
        (c ++ ">APRS,TCPIP*:") ++ ((":BLN" ++ i) ++ ("     :" ++ m)) := by
      simp only [APRSformatBulletin, string_append_assoc]
    rw [hsplit]
    exact strContains_of_append (c ++ ">APRS,TCPIP*:").data
      (":BLN" ++ i).data ("     :" ++ m).data
  · simp [APRSsendBulletin, postToAPRS, Nat.not_lt.mpr h, hcon]

/-- C5 (witness): the amended send facts at concrete clients and
messages (the first message has 68 characters). -/
theorem claim_C5_witness :
    ("aaaaaaaaaaaaaaaaaaaaaaaaaaaaaaaaaaaaaaaaaaaaaaaaaaaaaaaaaaaaaaaaaaaa" :
        String).length > 67 ∧
    APRSsendBulletin ⟨true, []⟩ "W4KRL-2"
        "aaaaaaaaaaaaaaaaaaaaaaaaaaaaaaaaaaaaaaaaaaaaaaaaaaaaaaaaaaaaaaaaaaaa" "1" =
      ⟨true, []⟩ ∧
    (APRSsendBulletin ⟨true, []⟩ "W4KRL-2" "Keep calm." "M").written =
      [] ++ [APRSformatBulletin "W4KRL-2" "Keep calm." "M"] ∧
    strContains (APRSformatBulletin "W4KRL-2" "Keep calm." "M") (":BLN" ++ "M") =
      true ∧
    APRSsendBulletin ⟨false, []⟩ "W4KRL-2" "Keep calm." "M" = ⟨false, []⟩ :=
  ⟨by decide,
   claim_C5_send_bulletin.1 ⟨true, []⟩ "W4KRL-2"
     "aaaaaaaaaaaaaaaaaaaaaaaaaaaaaaaaaaaaaaaaaaaaaaaaaaaaaaaaaaaaaaaaaaaa" "1"
     (by decide),
   (claim_C5_send_bulletin.2.1 ⟨true, []⟩ "W4KRL-2" "Keep calm." "M"
     (by decide) rfl).1,
   (claim_C5_send_bulletin.2.1 ⟨true, []⟩ "W4KRL-2" "Keep calm." "M"
     (by decide) rfl).2,
   claim_C5_send_bulletin.2.2 ⟨false, []⟩ "W4KRL-2" "Keep calm." "M"
     (by decide) rfl⟩

/-!
## Claim C6 — sends outside the Verified state
-/

/-- C6 (counterexample): transmission is not guarded by the connection
state: with `aprsState = APRS_LOGGED_IN` (not Verified) and a connected
client, a bulletin send writes to the transport; and `APRSsendACK` calls
`client.println` unconditionally, even on a disconnected client. -/
theorem claim_C6_counterexample :
    APRS_State.APRS_LOGGED_IN ≠ APRS_State.APRS_VERIFIED ∧
    (APRSsendBulletin ⟨true, []⟩ "W4KRL-2" "Hi" "1").written.length = 1 ∧
    (APRSsendACK ⟨false, []⟩ "W4KRL-2" "N0CALL" "42").written.length = 1 := by
  decide

/-- C6 (amended): outbound sends are guarded by transport connectivity
only, never by the `Verified` state: whatever the state is, `postToAPRS`
drops the message exactly when the client is not connected and writes it
when connected (no queueing either way), while `APRSsendACK` performs its
write unconditionally. -/
theorem claim_C6_send_guard :
    (∀ (st : APRS_State) (cl : Client) (m : String),
       st ≠ APRS_State.APRS_VERIFIED → cl.connected = false →
       postToAPRS cl m = cl) ∧
    (∀ (st : APRS_State) (cl : Client) (m : String),
       st ≠ APRS_State.APRS_VERIFIED → cl.connected = true →
       (postToAPRS cl m).written = cl.written ++ [m]) ∧
    (∀ (cl : Client) (c r g : String),
       (APRSsendACK cl c r g).written.length = cl.written.length + 1) := by
  refine ⟨fun st cl m _ hcon => ?_, fun st cl m _ hcon => ?_, fun cl c r g => ?_⟩
  · simp [postToAPRS, hcon]
  · simp [postToAPRS, hcon]
  · simp [APRSsendACK]

/-- C6 (witness): the amended guard facts at a concrete non-Verified
state and concrete clients. -/
theorem claim_C6_witness :
    postToAPRS ⟨false, []⟩ "hello" = ⟨false, []⟩ ∧
    (postToAPRS ⟨true, []⟩ "hello").written = [] ++ ["hello"] ∧
    (APRSsendACK ⟨true, []⟩ "W4KRL-2" "N0CALL" "42").written.length =
      ([] : List String).length + 1 :=
  ⟨claim_C6_send_guard.1 APRS_State.APRS_LOGGED_IN ⟨false, []⟩ "hello"
     (by decide) rfl,
   claim_C6_send_guard.2.1 APRS_State.APRS_CONNECTED ⟨true, []⟩ "hello"
     (by decide) rfl,
   claim_C6_send_guard.2.2 ⟨true, []⟩ "W4KRL-2" "N0CALL" "42"⟩

/-!
## Claim C8 — packet reader
-/

theorem string_pos_iff_ne_empty (s : String) : 0 < s.length ↔ s ≠ "" := by
  cases s with
  | mk l => cases l <;> simp [String.length, String.ext_iff]

/-- C8 (counterexample): with the transport connected and a byte
available, the reader does not always report ok: a buffer holding a bare
line feed yields the empty line and `readAPRSPacket` returns false
(because of its final `packet.length() > 0` check), although it does
consume the byte and reset the idle timer. -/
theorem claim_C8_counterexample :
    (⟨true, ['\n']⟩ : ReaderClient).connected = true ∧
    (⟨true, ['\n']⟩ : ReaderClient).buffer.isEmpty = false ∧
    readAPRSPacket ⟨true, ['\n']⟩ 7 5 = (⟨true, []⟩, 0, "", false) := by
  decide

/-- C8 (amended): if the transport is not connected the reader returns
not-ok immediately with an empty line and untouched timer; if it is
connected and at least one byte is available, it returns the accumulated
line with the newline terminator stripped and resets its idle timer, and
reports ok exactly when that stripped line is nonempty (an empty line is
returned with ok = false). -/
theorem claim_C8_read_packet :
    (∀ (cl : ReaderClient) (ts now : Nat), cl.connected = false →
       readAPRSPacket cl ts now = (cl, ts, "", false)) ∧
    (∀ (cl : ReaderClient) (ts now : Nat), cl.connected = true →
       cl.buffer.isEmpty = false →
       (readAPRSPacket cl ts now).2.1 = 0 ∧
       (readAPRSPacket cl ts now).2.2.1.data =
         cl.buffer.takeWhile (fun ch => ch ≠ '\n') ∧
       ((readAPRSPacket cl ts now).2.2.2 = true ↔
         (readAPRSPacket cl ts now).2.2.1 ≠ "")) := by
  constructor
  · intro cl ts now hcon
    simp [readAPRSPacket, hcon]
  · intro cl ts now hcon hbuf
    refine ⟨?_, ?_, ?_⟩
    · simp [readAPRSPacket, hcon, hbuf]
    · simp [readAPRSPacket, hcon, hbuf, readStringUntilNL]
    · simp only [readAPRSPacket, hcon, hbuf]
      simp [readStringUntilNL, String.ext_iff, List.length_pos]

/-- C8 (witness): the amended reader facts at a concrete disconnected
client and at a concrete connected client holding `"# hi\nrest"`. -/
theorem claim_C8_witness :
    readAPRSPacket ⟨false, "abc".data⟩ 7 5 = (⟨false, "abc".data⟩, 7, "", false) ∧
    (readAPRSPacket ⟨true, "# hi\nrest".data⟩ 7 5).2.1 = 0 ∧
    (readAPRSPacket ⟨true, "# hi\nrest".data⟩ 7 5).2.2.1.data =
      ("# hi\nrest".data).takeWhile (fun ch => ch ≠ '\n') ∧
    ((readAPRSPacket ⟨true, "# hi\nrest".data⟩ 7 5).2.2.2 = true ↔
      (readAPRSPacket ⟨true, "# hi\nrest".data⟩ 7 5).2.2.1 ≠ "") :=
  ⟨claim_C8_read_packet.1 ⟨false, "abc".data⟩ 7 5 rfl,
   (claim_C8_read_packet.2 ⟨true, "# hi\nrest".data⟩ 7 5 rfl (by decide)).1,
   (claim_C8_read_packet.2 ⟨true, "# hi\nrest".data⟩ 7 5 rfl (by decide)).2.1,
   (claim_C8_read_packet.2 ⟨true, "# hi\nrest".data⟩ 7 5 rfl (by decide)).2.2⟩

/-!
## Claim C10 — reader idle timeout inside the verification window
-/

/-- Once the client has been force-closed, the verification loop keeps
polling without progress and returns false at the first clock reading
past the deadline. -/
theorem verifyAux_disconnected (deadline : Nat) (ts : List Nat) :
    ∀ (buf : List Char) (stamp : Nat),
      (∃ v ∈ ts, deadline ≤ v) →
      verifyAux deadline ts ⟨false, buf⟩ stamp =
        (some false, ⟨false, buf⟩, stamp) := by
  induction ts with
  | nil =>
      rintro buf stamp ⟨v, hv, -⟩
      simp at hv
  | cons t ts ih =>
      rintro buf stamp ⟨v, hv, hd⟩
      by_cases ht : t < deadline
      · have hread : readAPRSPacket ⟨false, buf⟩ stamp t =
            (⟨false, buf⟩, stamp, "", false) := by
          simp [readAPRSPacket]
        have hv' : v ∈ ts := by
          rcases List.mem_cons.mp hv with heq | hmem
          · exact absurd hd (by omega)
          · exact hmem
        simp only [verifyAux, if_pos ht, hread]
        exact ih buf stamp ⟨v, hv', hd⟩
      · simp [verifyAux, ht]

/-- With the transport connected but silent (empty buffer forever) and the
idle timer already started at `t0 > 0`, a clock reading past
`t0 + 1500` but before the deadline force-closes the client, after which
the loop returns false at the first reading past the deadline. -/
theorem verifyAux_idle_timeout (deadline t0 : Nat) (h0 : 0 < t0) :
    ∀ ts : List Nat, List.Pairwise (· < ·) ts →
      (∃ u ∈ ts, t0 + 1500 < u ∧ u < deadline) →
      (∃ v ∈ ts, deadline ≤ v) →
      verifyAux deadline ts ⟨true, []⟩ t0 = (some false, ⟨false, []⟩, 0) := by
  intro ts
  induction ts with
  | nil =>
      rintro - ⟨u, hu, -⟩ -
      simp at hu
  | cons x ts ih =>
      rintro hpw ⟨u, hu_mem, hu1, hu2⟩ ⟨v, hv_mem, hvd⟩
      have hhead : ∀ w ∈ ts, x < w := (List.pairwise_cons.mp hpw).1
      have hx : x < deadline := by
        rcases List.mem_cons.mp hu_mem with heq | hmem
        · omega
        · exact lt_trans (hhead u hmem) hu2
      have hv' : v ∈ ts := by
        rcases List.mem_cons.mp hv_mem with heq | hmem
        · exact absurd hvd (by omega)
        · exact hmem
      by_cases hgt : t0 + 1500 < x
      · have hread : readAPRSPacket ⟨true, []⟩ t0 x =
            (⟨false, []⟩, 0, "", false) := by
          have hne : ¬(t0 = 0) := by omega
          have hsub : x - t0 > 1500 := by omega
          simp [readAPRSPacket, hne, hsub]
        simp only [verifyAux, if_pos hx, hread]
        exact verifyAux_disconnected deadline ts [] 0 ⟨v, hv', hvd⟩
      · have hread : readAPRSPacket ⟨true, []⟩ t0 x =
            (⟨true, []⟩, t0, "", false) := by
          have hne : ¬(t0 = 0) := by omega
          have hsub : ¬(x - t0 > 1500) := by omega
          simp [readAPRSPacket, hne, hsub]
        have hu' : u ∈ ts := by
          rcases List.mem_cons.mp hu_mem with heq | hmem
          · exact absurd hu1 (by omega)
          · exact hmem
        simp only [verifyAux, if_pos hx, hread]
        exact ih (List.pairwise_cons.mp hpw).2 ⟨u, hu', hu1, hu2⟩ ⟨v, hv', hvd⟩

/-- C10 (confirmed): during the 2000 ms verification window, a connected
but silent transport (no byte ever arrives, so every nested
`readAPRSPacket` call sees an empty buffer) is force-closed by the reader
as soon as some clock reading exceeds the reader idle timeout of 1500 ms
past the first poll — strictly before the verification deadline
`t0 + 2000` — and `verifyLogonStatus` then returns false with the client
disconnected: the quiet but healthy connection is killed by the reader
idle timeout, not by the verification timeout. -/
theorem claim_C10_reader_timeout_wins (t0 : Nat) (ts : List Nat)
    (h0 : 0 < t0)
    (hpw : List.Pairwise (· < ·) (t0 :: ts))
    (hu : ∃ u ∈ ts, t0 + 1500 < u ∧ u < t0 + 2000)
    (hv : ∃ v ∈ ts, t0 + 2000 ≤ v) :
    verifyLogonStatus t0 (t0 :: ts) ⟨true, []⟩ 0 =
      (some false, ⟨false, []⟩, 0) := by
  have hx : t0 < t0 + 2000 := by omega
  have hread : readAPRSPacket ⟨true, []⟩ 0 t0 = (⟨true, []⟩, t0, "", false) := by
    simp [readAPRSPacket]
  simp only [verifyLogonStatus, verifyAux, if_pos hx, hread]
  exact verifyAux_idle_timeout (t0 + 2000) t0 h0 ts
    (List.pairwise_cons.mp hpw).2 hu hv

/-- C10 (witness): a concrete silent trace — first poll at 10 ms, then
readings at 1000, 1600 and 2500 ms.  The reading at 1600 ms (more than
1500 ms after the first poll, before the 2010 ms deadline) closes the
client; the reading at 2500 ms ends the loop with false. -/
theorem claim_C10_witness :
    verifyLogonStatus 10 [10, 1000, 1600, 2500] ⟨true, []⟩ 0 =
      (some false, ⟨false, []⟩, 0) :=
  claim_C10_reader_timeout_wins 10 [1000, 1600, 2500] (by decide) (by decide)
    (by decide) (by decide)
